import Mathlib

/-!
Shallow embedding of `src/support/storage/cfd/lld/fsmc_nand_lld.c`, the STM32F4
FSMC NAND low-level driver, and proofs about its ECC codec, status state
machine, page sequencing, geometry decoding and addressing.

The embedding follows the compiled configuration of the file: `ASYNC_MODE = 1`
(src line 44) and `ECC_METHOD == HW_ECC` (the build the specification
describes; all ECC code lives under that guard).  Hardware is modelled as the
byte streams the data port delivers and the raw ECC accumulator value; machine
integers are `Nat` with explicit reduction mod 2^32 where the C type forces it.
-/

namespace FsmcNand

/-- Modelled from the spec: the result codes of `fd_if.h` are outside `src/`;
the claims only need the codes to be pairwise distinct, so representative
values are chosen. `FM_SUCCESS` is the success code. -/
def FM_SUCCESS : Int := 0

/-- Modelled from the spec: generic failure code (`fd_if.h`, outside `src/`). -/
def FM_ERROR : Int := -1

/-- Modelled from the spec: distinct ECC-failure result code. -/
def FM_ECC_ERROR : Int := -2

/-- Modelled from the spec: write-failure result code. -/
def FM_WRITE_ERROR : Int := -3

/-- Modelled from the spec: erase-failure result code. -/
def FM_ERASE_ERROR : Int := -4

/-- Modelled from the spec: ECC classification codes of `ecc_512b.h` are
outside `src/`; only distinctness matters. `ECC_NO_ERROR` means Ok. -/
def ECC_NO_ERROR : Int := 0

/-- Modelled from the spec: classification Corrected (single bit fixed). -/
def ECC_CORRECTABLE_ERROR : Int := 1

/-- Modelled from the spec: classification EccSelfError (parity bytes
themselves corrupted). -/
def ECC_ECC_ERROR : Int := 2

/-- Modelled from the spec: classification Uncorrectable. -/
def ECC_UNCORRECTABLE_ERROR : Int := 3

/-- src 1027: `ECC_MASK28`, the 28 valid ECC parity bits. -/
def ECC_MASK28 : Nat := 0x0FFFFFFF

/-- src 1028: `ECC_MASK`, the 14 odd (or even) ECC parity bit positions. -/
def ECC_MASK : Nat := 0x05555555

/-- Modulus of the C type `uint32_t`. -/
def UINT32_MOD : Nat := 4294967296

/-- Little-endian 32-bit load `*(uint32_t *)(buf + off)` from a byte buffer,
as on the ARM target. Bytes are reduced mod 256 as `uint8_t` storage forces. -/
def word32le (buf : Nat → Nat) (off : Nat) : Nat :=
  buf off % 256 + 256 * (buf (off + 1) % 256) + 65536 * (buf (off + 2) % 256) +
    16777216 * (buf (off + 3) % 256)

/-- Little-endian 32-bit store `*(uint32_t *)(buf + off) = w`. -/
def store_word32le (buf : Nat → Nat) (off w : Nat) : Nat → Nat :=
  fun i => if off ≤ i ∧ i < off + 4 then (w >>> (8 * (i - off))) % 256 else buf i

/-- src 1037-1038: each `uint32_t` argument of `ecc_correct_data` is
complemented (`x ^= 0xFFFFFFFF`) on entry; the mod encodes the 32-bit type. -/
def ecc_complement (x : Nat) : Nat := (x % UINT32_MOD) ^^^ 0xFFFFFFFF

/-- src 1039: the syndrome of two (already complemented) codes. -/
def ecc_syndrome (c r : Nat) : Nat := (c ^^^ r) &&& ECC_MASK28

/-- src 1045: the 14 odd parity bits of a syndrome. -/
def ecc_odd_bits (syndrome : Nat) : Nat := syndrome &&& ECC_MASK

/-- src 1046: the 14 even parity bits of a syndrome. -/
def ecc_even_bits (syndrome : Nat) : Nat := (syndrome >>> 1) &&& ECC_MASK

/-- src 1049-1051: 3-bit bit index extracted from the even parity bits. -/
def ecc_bit_num (e : Nat) : Nat :=
  (e &&& 0x01) ||| ((e >>> 1) &&& 0x02) ||| ((e >>> 2) &&& 0x04)

/-- src 1053-1063: 11-bit byte offset extracted from the even parity bits. -/
def ecc_byte_addr (e : Nat) : Nat :=
  ((e >>> 6) &&& 0x001) ||| ((e >>> 7) &&& 0x002) ||| ((e >>> 8) &&& 0x004) |||
    ((e >>> 9) &&& 0x008) ||| ((e >>> 10) &&& 0x010) ||| ((e >>> 11) &&& 0x020) |||
    ((e >>> 12) &&& 0x040) ||| ((e >>> 13) &&& 0x080) ||| ((e >>> 14) &&& 0x100) |||
    ((e >>> 15) &&& 0x200) ||| ((e >>> 16) &&& 0x400)

/-- src 1071-1076: `mask = 0x00800000; while (mask) { if (syndrome & mask)
count++; mask >>= 1; }` — the set bits of `syndrome` at positions `n-1` down to
`0` are counted, with `n = 24` at the call site. -/
def ecc_ones_count (syndrome : Nat) : Nat → Nat
  | 0 => 0
  | n + 1 => (if syndrome &&& (1 <<< n) ≠ 0 then 1 else 0) + ecc_ones_count syndrome n

/-- src 1030-1083 (`ecc_correct_data`). The C function mutates the data buffer
in place in the correctable branch; the model returns the classification code
together with the resulting buffer. -/
def ecc_correct_data (ecc_calc ecc_read : Nat) (data : Nat → Nat) :
    Int × (Nat → Nat) :=
  if ecc_syndrome (ecc_complement ecc_calc) (ecc_complement ecc_read) = 0 then
    (ECC_NO_ERROR, data)
  else if ecc_odd_bits (ecc_syndrome (ecc_complement ecc_calc) (ecc_complement ecc_read)) ^^^
      ecc_even_bits (ecc_syndrome (ecc_complement ecc_calc) (ecc_complement ecc_read)) =
      ECC_MASK then
    (ECC_CORRECTABLE_ERROR, fun i =>
      if i = ecc_byte_addr (ecc_even_bits
          (ecc_syndrome (ecc_complement ecc_calc) (ecc_complement ecc_read))) then
        data i ^^^ (1 <<< ecc_bit_num (ecc_even_bits
          (ecc_syndrome (ecc_complement ecc_calc) (ecc_complement ecc_read))))
      else data i)
  else if ecc_ones_count
      (ecc_syndrome (ecc_complement ecc_calc) (ecc_complement ecc_read)) 24 = 1 then
    (ECC_ECC_ERROR, data)
  else (ECC_UNCORRECTABLE_ERROR, data)

/-- Operation status owned by the readiness state machine (values of
`NAND_READY`, `NAND_BUSY`, `NAND_ERROR`, `NAND_TIMEOUT_ERROR` live in a header
outside `src/`; only their distinctness matters, so they are an inductive). -/
inductive NandStatus where
  | ready
  | busy
  | error
  | timeoutError
  deriving DecidableEq

/-- One status byte as delivered by the data port, abstracted to whether the
error bit (`data & NAND_ERROR`) and the ready bit (`data & NAND_READY`) are
set. -/
structure StatusByte where
  errBit : Bool
  readyBit : Bool

/-- src 787-795: decode one status byte; the error bit is checked first. -/
def status_of_byte (b : StatusByte) : NandStatus :=
  if b.errBit then NandStatus.error
  else if b.readyBit then NandStatus.ready
  else NandStatus.busy

/-- src 781-798: the status polling loop of `fsmc_nand_get_status`.  Arguments:
stream of status bytes, next read index, current `status`, remaining
`timeout`.  Returns the final `status` and `timeout` values. -/
def get_status_loop (reads : Nat → StatusByte) :
    Nat → NandStatus → Nat → NandStatus × Nat
  | _, status, 0 => (status, 0)
  | i, status, t + 1 =>
    if status = NandStatus.ready then (status, t + 1)
    else get_status_loop reads (i + 1) (status_of_byte (reads i)) t

/-- src 774-806 (`fsmc_nand_get_status`): retry budget `timeout = 2`, initial
status `NAND_BUSY`; after the loop, `timeout == 0` forces
`NAND_TIMEOUT_ERROR`. -/
def fsmc_nand_get_status (reads : Nat → StatusByte) : NandStatus :=
  if (get_status_loop reads 0 NandStatus.busy 2).2 = 0 then NandStatus.timeoutError
  else (get_status_loop reads 0 NandStatus.busy 2).1

/-- src 616-624 (`fsmc_nand_sync`). -/
def fsmc_nand_sync (reads : Nat → StatusByte) : Int :=
  if fsmc_nand_get_status reads = NandStatus.ready then FM_SUCCESS else FM_ERROR

/-- Hardware environment of one page read: the byte streams the chip delivers
for the data area and the spare area, and the raw FSMC ECC accumulator value
(`FSMC_GetECC`). -/
structure NandEnv where
  dataArea : Nat → Nat
  spareArea : Nat → Nat
  eccReg : Nat

/-- ECC verification section of `fsmc_nand_read_page` (src 411-446), reached
when a data buffer was given: `ecc_calc` is the complemented hardware code,
`spare` the spare bytes just read, `data` the data bytes just read.  The
stored code is taken from spare offset 8; on a first `ECC_ECC_ERROR` the
backup copy at spare offset 12 is tried once (`retry` flag and `goto
ecc_retry`); a second `ECC_ECC_ERROR` falls through to the default
(uncorrectable) case. -/
def read_page_ecc_verify (ecc_calc : Nat) (spare data : Nat → Nat) :
    Int × (Nat → Nat) :=
  if ecc_calc = word32le spare 8 then (FM_SUCCESS, data)
  else if (ecc_correct_data ecc_calc (word32le spare 8) data).1 = ECC_NO_ERROR then
    (FM_SUCCESS, (ecc_correct_data ecc_calc (word32le spare 8) data).2)
  else if (ecc_correct_data ecc_calc (word32le spare 8) data).1 = ECC_CORRECTABLE_ERROR then
    (FM_SUCCESS, (ecc_correct_data ecc_calc (word32le spare 8) data).2)
  else if (ecc_correct_data ecc_calc (word32le spare 8) data).1 = ECC_ECC_ERROR then
    if ecc_calc = word32le spare 12 then
      (FM_SUCCESS, (ecc_correct_data ecc_calc (word32le spare 8) data).2)
    else if (ecc_correct_data ecc_calc (word32le spare 12)
        (ecc_correct_data ecc_calc (word32le spare 8) data).2).1 = ECC_NO_ERROR then
      (FM_SUCCESS, (ecc_correct_data ecc_calc (word32le spare 12)
        (ecc_correct_data ecc_calc (word32le spare 8) data).2).2)
    else if (ecc_correct_data ecc_calc (word32le spare 12)
        (ecc_correct_data ecc_calc (word32le spare 8) data).2).1 = ECC_CORRECTABLE_ERROR then
      (FM_SUCCESS, (ecc_correct_data ecc_calc (word32le spare 12)
        (ecc_correct_data ecc_calc (word32le spare 8) data).2).2)
    else
      (FM_ECC_ERROR, (ecc_correct_data ecc_calc (word32le spare 12)
        (ecc_correct_data ecc_calc (word32le spare 8) data).2).2)
  else (FM_ECC_ERROR, (ecc_correct_data ecc_calc (word32le spare 8) data).2)

/-- src 343-449 (`fsmc_nand_read_page`) under the HW_ECC build.  `dbuf_given`
and `sbuf_given` say whether the caller passed the buffers.  A null `sbuf` is
substituted by the local `__sbuf` (src 353) before the null-argument check
(src 356), so by the time that check runs the spare pointer is never null —
modelled by the `sbuf_is_null := false` binding.  Returns the result code and
the final data buffer when one was given (after the spare transfer the spare
buffer holds the chip's spare bytes, `env.spareArea`). -/
def fsmc_nand_read_page (env : NandEnv) (dbuf_given sbuf_given : Bool) :
    Int × Option (Nat → Nat) :=
  let sbuf_is_null := false
  if !dbuf_given && sbuf_is_null then (FM_ERROR, none)
  else if dbuf_given then
    ((read_page_ecc_verify (ecc_complement env.eccReg) env.spareArea env.dataArea).1,
      some (read_page_ecc_verify (ecc_complement env.eccReg) env.spareArea env.dataArea).2)
  else (FM_SUCCESS, none)

/-- Result of a page program operation: result code, bytes sent to the data
area (when a data buffer was given) and bytes sent to the spare area (always
sent: a null spare buffer is substituted by a 0xFF-filled local). -/
structure WriteResult where
  err : Int
  dataWritten : Option (Nat → Nat)
  spareWritten : Nat → Nat

/-- src 478-558 (`fsmc_nand_write_page`) under the HW_ECC, ASYNC_MODE = 1
build.  A null `sbuf` is substituted by a 0xFF-filled local (src 487-490)
before the null-argument check (src 493), so that check can never fire.  When
a data buffer is given, the complemented hardware code is stored at spare
offsets 8 and 12 (src 525-526).  With ASYNC_MODE = 1 the status poll
(src 552-554) is compiled out, so `status` keeps its `NAND_READY`
initialisation. -/
def fsmc_nand_write_page (eccReg : Nat) (dbuf sbuf0 : Option (Nat → Nat)) :
    WriteResult :=
  let sbuf := sbuf0.getD (fun _ => 0xFF)
  let status := NandStatus.ready
  match dbuf with
  | some d =>
    { err := if status = NandStatus.ready then FM_SUCCESS else FM_WRITE_ERROR
      dataWritten := some d
      spareWritten :=
        store_word32le (store_word32le sbuf 8 (ecc_complement eccReg)) 12
          (ecc_complement eccReg) }
  | none =>
    { err := if status = NandStatus.ready then FM_SUCCESS else FM_WRITE_ERROR
      dataWritten := none
      spareWritten := sbuf }

/-- src 561-593 (`fsmc_nand_write_bytes`) under ASYNC_MODE = 1: argument
validation, then the program sequence; `status` keeps its `NAND_READY`
initialisation because the status poll (src 587-589) is compiled out. -/
def fsmc_nand_write_bytes (num_bytes : Nat) (dbuf_given : Bool) : Int :=
  if !dbuf_given then FM_ERROR
  else if num_bytes < 4 then FM_ERROR
  else
    let status := NandStatus.ready
    if status = NandStatus.ready then FM_SUCCESS else FM_WRITE_ERROR

/-- src 596-613 (`fsmc_nand_erase`) under ASYNC_MODE = 1: the status poll
(src 607-609) is compiled out, so `status` keeps its `NAND_READY`
initialisation. -/
def fsmc_nand_erase (chip block : Nat) : Int :=
  let status := NandStatus.ready
  if status = NandStatus.ready then FM_SUCCESS else FM_ERASE_ERROR

/-- NAND information decoded from the identity bytes (src 109-122). -/
structure nand_info_t where
  internal_chip_number : Nat
  cell_type : Nat
  simul_prog_pages : Nat
  interleave_support : Nat
  cache_prog_support : Nat
  page_size : Nat
  block_size : Nat
  spare_size_per_512 : Nat
  organization : Nat
  serial_access_min : Nat
  plane_number : Nat
  plane_size : Nat

/-- Per-chip spec registered with the CFD framework (`flash_chip_spec_t`,
fields as initialised at src 134-149 and recomputed at src 729-740). -/
structure flash_chip_spec_t where
  page_size : Nat
  data_size : Nat
  spare_size : Nat
  sectors_per_page : Nat
  pages_per_block : Nat
  block_size : Nat
  num_blocks : Nat
  num_dies_per_ce : Nat
  num_planes : Nat
  max_num_bad_blocks : Nat

/-- src 692-707: bit-field extraction from identity bytes 3-5; bytes 1-2
(maker, device) only select a printed type label (src 670-689). -/
def decode_nand_info (id3 id4 id5 : Nat) : nand_info_t where
  internal_chip_number := 1 <<< (id3 &&& 0x03)
  cell_type := 2 <<< ((id3 &&& 0x0c) >>> 2)
  simul_prog_pages := 1 <<< ((id3 &&& 0x30) >>> 4)
  interleave_support := (id3 &&& 0x40) >>> 6
  cache_prog_support := (id3 &&& 0x80) >>> 7
  page_size := 1024 <<< (id4 &&& 0x03)
  block_size := 65536 <<< ((id4 &&& 0x30) >>> 4)
  spare_size_per_512 := 8 <<< ((id4 &&& 0x04) >>> 2)
  organization := 8 <<< ((id4 &&& 0x40) >>> 6)
  serial_access_min := 50 >>> ((id4 &&& 0x80) >>> 7)
  plane_number := 1 <<< ((id5 &&& 0x0c) >>> 2)
  plane_size := 8388608 <<< ((id5 &&& 0x70) >>> 4)

/-- src 729-740: derivation of the operational chip spec from the decoded NAND
info, in the order the C assignments run. -/
def decode_flash_spec (n : nand_info_t) : flash_chip_spec_t :=
  let data_size := n.page_size
  let sectors_per_page := data_size >>> 9
  let spare_size := n.spare_size_per_512 * sectors_per_page
  let page_size := data_size + spare_size
  let block_size := n.block_size
  let pages_per_block := block_size / data_size
  let num_blocks := n.plane_size / block_size * n.plane_number
  { page_size := page_size
    data_size := data_size
    spare_size := spare_size
    sectors_per_page := sectors_per_page
    pages_per_block := pages_per_block
    block_size := block_size
    num_blocks := num_blocks
    num_dies_per_ce := n.internal_chip_number
    num_planes := n.plane_number
    max_num_bad_blocks := num_blocks * 245 / 10000 }

/-- Geometry decode of `fsmc_nand_read_id` (src 651-759): the five identity
bytes to the chip spec; the first two bytes only select a diagnostic label. -/
def fsmc_nand_decode_id (maker_id device_id id3 id4 id5 : Nat) : flash_chip_spec_t :=
  decode_flash_spec (decode_nand_info id3 id4 id5)

/-- src 134-149: the static chip-0 spec table entry. -/
def flash_spec_0 : flash_chip_spec_t where
  page_size := 2048 + 64
  data_size := 2048
  spare_size := 64
  sectors_per_page := 4
  pages_per_block := 64
  block_size := 2048 * 64
  num_blocks := 1024
  num_dies_per_ce := 1
  num_planes := 1
  max_num_bad_blocks := 25

/-- Modelled from the spec: `NAND_BLOCK_SIZE` comes from `fsmc_nand.h`
(outside `src/`); it is the page count per block, 64 for this chip, matching
`flash_spec[0].pages_per_block`. -/
def NAND_BLOCK_SIZE : Nat := 64

/-- src 55: `ROW_ADDRESS(block, page)`. -/
def ROW_ADDRESS (block page : Nat) : Nat := page + block * NAND_BLOCK_SIZE

/-- Modelled from the spec: `ADDR_1st_CYCLE` (`fsmc_nand.h`, outside `src/`)
is the low byte of the row address sent as the first row-address cycle. -/
def ADDR_1st_CYCLE (addr : Nat) : Nat := addr % 256

/-- Modelled from the spec: `ADDR_2nd_CYCLE` is the second byte of the row
address sent as the second row-address cycle. -/
def ADDR_2nd_CYCLE (addr : Nat) : Nat := addr / 256 % 256

/-! Helper lemmas. -/

/-- Complementing both codes before taking the syndrome changes nothing: the
complement bits cancel in the XOR and the mod-2^32 reductions do not touch the
28 masked bits. -/
theorem ecc_syndrome_complement (a b : Nat) :
    ecc_syndrome (ecc_complement a) (ecc_complement b) = ecc_syndrome a b := by
  unfold ecc_syndrome ecc_complement ECC_MASK28 UINT32_MOD
  apply Nat.eq_of_testBit_eq
  intro i
  have h1 : (0x0FFFFFFF : Nat) = 2 ^ 28 - 1 := by norm_num
  have h2 : (0xFFFFFFFF : Nat) = 2 ^ 32 - 1 := by norm_num
  have h3 : (4294967296 : Nat) = 2 ^ 32 := by norm_num
  rw [h1, h2, h3]
  simp only [Nat.testBit_and, Nat.testBit_xor, Nat.testBit_mod_two_pow,
    Nat.testBit_two_pow_sub_one]
  by_cases hi : i < 28
  · have hi32 : i < 32 := by omega
    simp only [hi, hi32, decide_True, Bool.and_true, Bool.true_and]
    cases a.testBit i <;> cases b.testBit i <;> rfl
  · simp [hi]

/-- A code compared against itself has zero syndrome, so verification reports
no error and leaves the data untouched. -/
theorem ecc_correct_data_self (c : Nat) (d : Nat → Nat) :
    ecc_correct_data c c d = (ECC_NO_ERROR, d) := by
  unfold ecc_correct_data
  rw [ecc_syndrome_complement]
  simp [ecc_syndrome]

/-- Outside the correctable branch the data buffer is returned unchanged. -/
theorem ecc_correct_data_snd_eq (c r : Nat) (d : Nat → Nat)
    (h : (ecc_correct_data c r d).1 ≠ ECC_CORRECTABLE_ERROR) :
    (ecc_correct_data c r d).2 = d := by
  unfold ecc_correct_data at h ⊢
  by_cases h0 : ecc_syndrome (ecc_complement c) (ecc_complement r) = 0
  · simp [h0]
  · by_cases hc : ecc_odd_bits (ecc_syndrome (ecc_complement c) (ecc_complement r)) ^^^
        ecc_even_bits (ecc_syndrome (ecc_complement c) (ecc_complement r)) = ECC_MASK
    · simp only [h0, hc, if_false, if_true, if_neg, if_pos] at h
      simp [ECC_CORRECTABLE_ERROR] at h
    · by_cases h2 : ecc_ones_count (ecc_syndrome (ecc_complement c) (ecc_complement r)) 24 = 1
      · simp [h0, hc, h2]
      · simp [h0, hc, h2]

/-- Bit characterisation of the extracted bit index: bit j of the index is
even-parity bit 2j, and only the low 3 bits can be set. -/
theorem ecc_bit_num_testBit (e j : Nat) :
    (ecc_bit_num e).testBit j = (decide (j < 3) && e.testBit (2 * j)) := by
  have t1 : ∀ k, Nat.testBit 1 k = decide (0 = k) := fun k => by
    rw [show (1 : Nat) = 2 ^ 0 by norm_num, Nat.testBit_two_pow]
  have t2 : ∀ k, Nat.testBit 2 k = decide (1 = k) := fun k => by
    rw [show (2 : Nat) = 2 ^ 1 by norm_num, Nat.testBit_two_pow]
  have t4 : ∀ k, Nat.testBit 4 k = decide (2 = k) := fun k => by
    rw [show (4 : Nat) = 2 ^ 2 by norm_num, Nat.testBit_two_pow]
  unfold ecc_bit_num
  simp only [Nat.testBit_or, Nat.testBit_and, Nat.testBit_shiftRight, t1, t2, t4]
  match j with
  | 0 => simp
  | 1 => simp
  | 2 => simp
  | j + 3 =>
    rw [decide_eq_false (by omega : ¬ (0 = j + 3)),
      decide_eq_false (by omega : ¬ (1 = j + 3)),
      decide_eq_false (by omega : ¬ (2 = j + 3)),
      decide_eq_false (by omega : ¬ (j + 3 < 3))]
    simp

/-- Bit characterisation of the extracted byte offset: bit m of the offset is
even-parity bit 6 + 2m, and only the low 11 bits can be set. -/
theorem ecc_byte_addr_testBit (e m : Nat) :
    (ecc_byte_addr e).testBit m = (decide (m < 11) && e.testBit (6 + 2 * m)) := by
  have t1 : ∀ k, Nat.testBit 1 k = decide (0 = k) := fun k => by
    rw [show (1 : Nat) = 2 ^ 0 by norm_num, Nat.testBit_two_pow]
  have t2 : ∀ k, Nat.testBit 2 k = decide (1 = k) := fun k => by
    rw [show (2 : Nat) = 2 ^ 1 by norm_num, Nat.testBit_two_pow]
  have t4 : ∀ k, Nat.testBit 4 k = decide (2 = k) := fun k => by
    rw [show (4 : Nat) = 2 ^ 2 by norm_num, Nat.testBit_two_pow]
  have t8 : ∀ k, Nat.testBit 8 k = decide (3 = k) := fun k => by
    rw [show (8 : Nat) = 2 ^ 3 by norm_num, Nat.testBit_two_pow]
  have t16 : ∀ k, Nat.testBit 16 k = decide (4 = k) := fun k => by
    rw [show (16 : Nat) = 2 ^ 4 by norm_num, Nat.testBit_two_pow]
  have t32 : ∀ k, Nat.testBit 32 k = decide (5 = k) := fun k => by
    rw [show (32 : Nat) = 2 ^ 5 by norm_num, Nat.testBit_two_pow]
  have t64 : ∀ k, Nat.testBit 64 k = decide (6 = k) := fun k => by
    rw [show (64 : Nat) = 2 ^ 6 by norm_num, Nat.testBit_two_pow]
  have t128 : ∀ k, Nat.testBit 128 k = decide (7 = k) := fun k => by
    rw [show (128 : Nat) = 2 ^ 7 by norm_num, Nat.testBit_two_pow]
  have t256 : ∀ k, Nat.testBit 256 k = decide (8 = k) := fun k => by
    rw [show (256 : Nat) = 2 ^ 8 by norm_num, Nat.testBit_two_pow]
  have t512 : ∀ k, Nat.testBit 512 k = decide (9 = k) := fun k => by
    rw [show (512 : Nat) = 2 ^ 9 by norm_num, Nat.testBit_two_pow]
  have t1024 : ∀ k, Nat.testBit 1024 k = decide (10 = k) := fun k => by
    rw [show (1024 : Nat) = 2 ^ 10 by norm_num, Nat.testBit_two_pow]
  unfold ecc_byte_addr
  simp only [Nat.testBit_or, Nat.testBit_and, Nat.testBit_shiftRight,
    t1, t2, t4, t8, t16, t32, t64, t128, t256, t512, t1024]
  match m with
  | 0 => simp
  | 1 => simp
  | 2 => simp
  | 3 => simp
  | 4 => simp
  | 5 => simp
  | 6 => simp
  | 7 => simp
  | 8 => simp
  | 9 => simp
  | 10 => simp
  | m + 11 =>
    rw [decide_eq_false (by omega : ¬ (0 = m + 11)),
      decide_eq_false (by omega : ¬ (1 = m + 11)),
      decide_eq_false (by omega : ¬ (2 = m + 11)),
      decide_eq_false (by omega : ¬ (3 = m + 11)),
      decide_eq_false (by omega : ¬ (4 = m + 11)),
      decide_eq_false (by omega : ¬ (5 = m + 11)),
      decide_eq_false (by omega : ¬ (6 = m + 11)),
      decide_eq_false (by omega : ¬ (7 = m + 11)),
      decide_eq_false (by omega : ¬ (8 = m + 11)),
      decide_eq_false (by omega : ¬ (9 = m + 11)),
      decide_eq_false (by omega : ¬ (10 = m + 11)),
      decide_eq_false (by omega : ¬ (m + 11 < 11))]
    simp

/-- The extracted bit index fits in 3 bits. -/
theorem ecc_bit_num_lt (e : Nat) : ecc_bit_num e < 8 := by
  unfold ecc_bit_num
  have h8 : (8 : Nat) = 2 ^ 3 := by norm_num
  rw [h8]
  refine Nat.or_lt_two_pow (Nat.or_lt_two_pow ?_ ?_) ?_ <;>
    exact lt_of_le_of_lt Nat.and_le_right (by norm_num)

/-- The extracted byte offset fits in 11 bits (the 2048-byte data area). -/
theorem ecc_byte_addr_lt (e : Nat) : ecc_byte_addr e < 2048 := by
  unfold ecc_byte_addr
  have h : (2048 : Nat) = 2 ^ 11 := by norm_num
  rw [h]
  repeat
    first
    | exact lt_of_le_of_lt Nat.and_le_right (by norm_num)
    | apply Nat.or_lt_two_pow

/-- Reading back a stored 32-bit word returns the word reduced mod 2^32. -/
theorem word32le_store_word32le (buf : Nat → Nat) (off w : Nat) :
    word32le (store_word32le buf off w) off = w % UINT32_MOD := by
  unfold word32le store_word32le UINT32_MOD
  rw [if_pos (show off ≤ off ∧ off < off + 4 by omega),
    if_pos (show off ≤ off + 1 ∧ off + 1 < off + 4 by omega),
    if_pos (show off ≤ off + 2 ∧ off + 2 < off + 4 by omega),
    if_pos (show off ≤ off + 3 ∧ off + 3 < off + 4 by omega)]
  simp only [Nat.add_sub_cancel_left, Nat.sub_self, Nat.mul_zero, Nat.mul_one,
    Nat.shiftRight_eq_div_pow]
  norm_num
  omega

/-- Storing a word at a disjoint offset leaves another 32-bit load unchanged. -/
theorem word32le_store_word32le_ne (buf : Nat → Nat) (off off2 w : Nat)
    (h : off2 + 4 ≤ off ∨ off + 4 ≤ off2) :
    word32le (store_word32le buf off w) off2 = word32le buf off2 := by
  unfold word32le store_word32le
  rw [if_neg (by omega), if_neg (by omega), if_neg (by omega), if_neg (by omega)]

/-- The complemented code is a 32-bit value. -/
theorem ecc_complement_lt (x : Nat) : ecc_complement x < UINT32_MOD := by
  unfold ecc_complement UINT32_MOD
  rw [show (4294967296 : Nat) = 2 ^ 32 by norm_num]
  exact Nat.xor_lt_two_pow (Nat.mod_lt x (by norm_num)) (by norm_num)

/-- After a first EccSelfError classification against the primary copy, the
verification outcome of `read_page_ecc_verify` is decided by the backup copy
at spare offset 12, with the data buffer still untouched. -/
theorem read_page_verify_retry (calc0 : Nat) (spare data : Nat → Nat)
    (hm : calc0 ≠ word32le spare 8)
    (hself : (ecc_correct_data calc0 (word32le spare 8) data).1 = ECC_ECC_ERROR) :
    read_page_ecc_verify calc0 spare data =
      if calc0 = word32le spare 12 then (FM_SUCCESS, data)
      else if (ecc_correct_data calc0 (word32le spare 12) data).1 = ECC_NO_ERROR then
        (FM_SUCCESS, (ecc_correct_data calc0 (word32le spare 12) data).2)
      else if (ecc_correct_data calc0 (word32le spare 12) data).1 =
          ECC_CORRECTABLE_ERROR then
        (FM_SUCCESS, (ecc_correct_data calc0 (word32le spare 12) data).2)
      else (FM_ECC_ERROR, (ecc_correct_data calc0 (word32le spare 12) data).2) := by
  have hd1 : (ecc_correct_data calc0 (word32le spare 8) data).2 = data :=
    ecc_correct_data_snd_eq _ _ _ (by rw [hself]; decide)
  unfold read_page_ecc_verify
  rw [if_neg hm, if_neg (by rw [hself]; decide), if_neg (by rw [hself]; decide),
    if_pos hself, hd1]

/-! Claim theorems. -/

/-- C6: for every pair of 32-bit codes with zero 28-bit syndrome
`(computed XOR stored) & 0x0FFFFFFF` — in particular whenever the computed
code equals the stored code — `ecc_correct_data` returns `ECC_NO_ERROR` and
leaves the data buffer unchanged. -/
theorem ecc_verify_ok_of_syndrome_zero (ecc_calc ecc_read : Nat) (data : Nat → Nat)
    (hc : ecc_calc < 4294967296) (hr : ecc_read < 4294967296)
    (h : (ecc_calc ^^^ ecc_read) &&& ECC_MASK28 = 0) :
    ecc_correct_data ecc_calc ecc_read data = (ECC_NO_ERROR, data) := by
  unfold ecc_correct_data
  rw [ecc_syndrome_complement]
  simp [ecc_syndrome, h]

/-- Witness for C6 at computed = stored = 5. -/
theorem ecc_verify_ok_of_syndrome_zero_witness :
    (5 : Nat) < 4294967296 ∧ ((5 ^^^ 5) &&& ECC_MASK28 = 0) ∧
      ecc_correct_data 5 5 (fun _ => 0) = (ECC_NO_ERROR, fun _ => 0) :=
  ⟨by decide, by decide,
    ecc_verify_ok_of_syndrome_zero 5 5 (fun _ => 0) (by decide) (by decide) (by decide)⟩

/-- C1 (code-bug evidence): with computed = 0x01000000 and stored = 0 the
syndrome is 2^24 — exactly one set bit — yet `ecc_correct_data` returns
`ECC_UNCORRECTABLE_ERROR`, because the counting loop's initial mask 0x00800000
scans only syndrome bits 0-23 of the 28 valid bits; dually, with stored = 1
the syndrome has two set bits yet the function returns `ECC_ECC_ERROR`
because only one of them lies below bit 24. -/
theorem ecc_syndrome_count_ignores_high_bits :
    ((16777216 ^^^ 0) &&& ECC_MASK28 = 2 ^ 24) ∧
      (ecc_correct_data 16777216 0 (fun _ => 0)).1 = ECC_UNCORRECTABLE_ERROR ∧
      ((16777216 ^^^ 1) &&& ECC_MASK28 = 2 ^ 24 + 1) ∧
      (ecc_correct_data 16777216 1 (fun _ => 0)).1 = ECC_ECC_ERROR := by
  decide

/-- C3 (code-bug evidence): under the HW_ECC build, `fsmc_nand_read_page`
called with both buffers null returns `FM_SUCCESS`, not `FM_ERROR`: the local
`__sbuf` is substituted for the null spare pointer before the null-argument
check runs, so the `FM_ERROR` path is unreachable and the call performs a
spare-area read into the local buffer. -/
theorem read_page_both_null_returns_success (env : NandEnv) :
    (fsmc_nand_read_page env false false).1 = FM_SUCCESS ∧ FM_SUCCESS ≠ FM_ERROR :=
  ⟨rfl, by decide⟩

/-- Unrolling of the status loop for its fixed budget of two reads. -/
theorem get_status_loop_two (reads : Nat → StatusByte) :
    get_status_loop reads 0 NandStatus.busy 2 =
      if status_of_byte (reads 0) = NandStatus.ready
      then (status_of_byte (reads 0), 1)
      else (status_of_byte (reads 1), 0) := rfl

/-- C2 (code-bug evidence): a status read observing the error bit does not
produce the Error result — with every read showing the error bit the routine
returns NAND_TIMEOUT_ERROR — and no status-byte sequence at all can make
`fsmc_nand_get_status` return Error: the loop keeps polling after recording an
error, and the final timeout test overwrites whatever the last permitted read
found.  TimeoutError is likewise returned whenever the first read is not
ready, even when the second read within the budget observed Ready. -/
theorem get_status_never_error :
    fsmc_nand_get_status (fun _ => ⟨true, false⟩) = NandStatus.timeoutError ∧
      fsmc_nand_get_status
          (fun i => if i = 0 then ⟨false, false⟩ else ⟨false, true⟩) =
        NandStatus.timeoutError ∧
      (∀ reads, fsmc_nand_get_status reads ≠ NandStatus.error) := by
  refine ⟨by decide, by decide, ?_⟩
  intro reads
  unfold fsmc_nand_get_status
  rw [get_status_loop_two]
  by_cases h : status_of_byte (reads 0) = NandStatus.ready
  · simp [h]
  · simp [h]

/-- C10: under the compiled configuration ASYNC_MODE = 1, `fsmc_nand_write_page`,
`fsmc_nand_write_bytes` and `fsmc_nand_erase` perform no status resolution: the
local status variable keeps its NAND_READY initialisation, every call that
passes argument validation returns FM_SUCCESS, and the FM_WRITE_ERROR /
FM_ERASE_ERROR results are unreachable; a program or erase failure is surfaced
only by a later `fsmc_nand_sync`, which maps a non-ready status resolution to
an error return. -/
theorem async_mode_writes_always_succeed :
    (∀ eccReg dbuf sbuf0, (fsmc_nand_write_page eccReg dbuf sbuf0).err = FM_SUCCESS) ∧
      (∀ num_bytes (dbuf_given : Bool), dbuf_given = true → 4 ≤ num_bytes →
        fsmc_nand_write_bytes num_bytes dbuf_given = FM_SUCCESS) ∧
      (∀ chip block, fsmc_nand_erase chip block = FM_SUCCESS) ∧
      (∀ reads, fsmc_nand_get_status reads ≠ NandStatus.ready →
        fsmc_nand_sync reads = FM_ERROR) := by
  refine ⟨?_, ?_, ?_, ?_⟩
  · intro eccReg dbuf sbuf0
    cases dbuf <;> rfl
  · intro n g hg hn
    subst hg
    unfold fsmc_nand_write_bytes
    simp [Nat.not_lt.2 hn]
  · intro chip block
    rfl
  · intro reads h
    unfold fsmc_nand_sync
    simp [h]

/-- Witness for C10: a valid 4-byte buffered write returns FM_SUCCESS, and a
sync whose status resolution is not ready returns the error code. -/
theorem async_mode_writes_always_succeed_witness :
    fsmc_nand_write_bytes 4 true = FM_SUCCESS ∧
      fsmc_nand_sync (fun _ => ⟨false, false⟩) = FM_ERROR :=
  ⟨async_mode_writes_always_succeed.2.1 4 true rfl (by decide),
    async_mode_writes_always_succeed.2.2.2 (fun _ => ⟨false, false⟩) (by decide)⟩

/-- C7: every decoded chip spec satisfies page_size = data_size + spare_size
and block_size = pages_per_block * data_size exactly, for all identity byte
values: the decoded block size (65536 shifted left by at most 3) is always an
exact multiple of the decoded data size (1024 shifted left by at most 3). -/
theorem decode_id_geometry_invariant (maker_id device_id id3 id4 id5 : Nat) :
    (fsmc_nand_decode_id maker_id device_id id3 id4 id5).page_size =
        (fsmc_nand_decode_id maker_id device_id id3 id4 id5).data_size +
          (fsmc_nand_decode_id maker_id device_id id3 id4 id5).spare_size ∧
      (fsmc_nand_decode_id maker_id device_id id3 id4 id5).block_size =
        (fsmc_nand_decode_id maker_id device_id id3 id4 id5).pages_per_block *
          (fsmc_nand_decode_id maker_id device_id id3 id4 id5).data_size := by
  constructor
  · rfl
  · show (65536 : Nat) <<< ((id4 &&& 0x30) >>> 4) =
      65536 <<< ((id4 &&& 0x30) >>> 4) / (1024 <<< (id4 &&& 0x03)) *
        (1024 <<< (id4 &&& 0x03))
    have hs : id4 &&& 0x03 ≤ 3 := Nat.and_le_right
    have hdata : (1024 : Nat) <<< (id4 &&& 0x03) = 2 ^ (10 + (id4 &&& 0x03)) := by
      rw [Nat.shiftLeft_eq, pow_add]
      norm_num
    have hblock : (65536 : Nat) <<< ((id4 &&& 0x30) >>> 4) =
        2 ^ (16 + ((id4 &&& 0x30) >>> 4)) := by
      rw [Nat.shiftLeft_eq, pow_add]
      norm_num
    have hdvd : (1024 : Nat) <<< (id4 &&& 0x03) ∣ 65536 <<< ((id4 &&& 0x30) >>> 4) := by
      rw [hdata, hblock]
      exact pow_dvd_pow 2 (by omega)
    rw [Nat.div_mul_cancel hdvd]

/-- C8: for every valid block and page, the linear row address equals
page + block * pages_per_block, and the two derived address-cycle bytes
reconstruct the row address exactly. -/
theorem row_address_round_trip (block page : Nat)
    (hb : block < flash_spec_0.num_blocks)
    (hp : page < flash_spec_0.pages_per_block) :
    ROW_ADDRESS block page = page + block * flash_spec_0.pages_per_block ∧
      ADDR_1st_CYCLE (ROW_ADDRESS block page) +
          256 * ADDR_2nd_CYCLE (ROW_ADDRESS block page) =
        ROW_ADDRESS block page := by
  have hb1 : block < 1024 := hb
  have hp1 : page < 64 := hp
  constructor
  · rfl
  · unfold ADDR_1st_CYCLE ADDR_2nd_CYCLE ROW_ADDRESS NAND_BLOCK_SIZE
    omega

/-- C4: for every pair of 32-bit codes whose non-zero 28-bit syndrome
satisfies odd XOR even = 0x05555555 (odd = syndrome & 0x05555555, even =
(syndrome >> 1) & 0x05555555), `ecc_correct_data` returns
ECC_CORRECTABLE_ERROR and flips exactly one bit of the data buffer in place:
the flipped position is byte `ecc_byte_addr even` — an 11-bit offset whose bit
m is even-parity bit 6 + 2m — at bit `ecc_bit_num even` — a 3-bit index whose
bit j is even-parity bit 2j — and every other byte is unchanged. -/
theorem ecc_single_bit_correction (ecc_calc ecc_read : Nat) (data : Nat → Nat)
    (hc : ecc_calc < 4294967296) (hr : ecc_read < 4294967296)
    (hnz : ecc_syndrome ecc_calc ecc_read ≠ 0)
    (hcor : ecc_odd_bits (ecc_syndrome ecc_calc ecc_read) ^^^
        ecc_even_bits (ecc_syndrome ecc_calc ecc_read) = ECC_MASK) :
    (ecc_correct_data ecc_calc ecc_read data).1 = ECC_CORRECTABLE_ERROR ∧
      ecc_bit_num (ecc_even_bits (ecc_syndrome ecc_calc ecc_read)) < 8 ∧
      ecc_byte_addr (ecc_even_bits (ecc_syndrome ecc_calc ecc_read)) < 2048 ∧
      (ecc_correct_data ecc_calc ecc_read data).2
          (ecc_byte_addr (ecc_even_bits (ecc_syndrome ecc_calc ecc_read))) =
        data (ecc_byte_addr (ecc_even_bits (ecc_syndrome ecc_calc ecc_read))) ^^^
          2 ^ ecc_bit_num (ecc_even_bits (ecc_syndrome ecc_calc ecc_read)) ∧
      (ecc_correct_data ecc_calc ecc_read data).2
          (ecc_byte_addr (ecc_even_bits (ecc_syndrome ecc_calc ecc_read))) ≠
        data (ecc_byte_addr (ecc_even_bits (ecc_syndrome ecc_calc ecc_read))) ∧
      (∀ i, i ≠ ecc_byte_addr (ecc_even_bits (ecc_syndrome ecc_calc ecc_read)) →
        (ecc_correct_data ecc_calc ecc_read data).2 i = data i) ∧
      (∀ j, (ecc_bit_num (ecc_even_bits (ecc_syndrome ecc_calc ecc_read))).testBit j =
        (decide (j < 3) &&
          (ecc_even_bits (ecc_syndrome ecc_calc ecc_read)).testBit (2 * j))) ∧
      (∀ m, (ecc_byte_addr (ecc_even_bits (ecc_syndrome ecc_calc ecc_read))).testBit m =
        (decide (m < 11) &&
          (ecc_even_bits (ecc_syndrome ecc_calc ecc_read)).testBit (6 + 2 * m))) := by
  have hpair : ecc_correct_data ecc_calc ecc_read data =
      (ECC_CORRECTABLE_ERROR, fun i =>
        if i = ecc_byte_addr (ecc_even_bits (ecc_syndrome ecc_calc ecc_read)) then
          data i ^^^ (1 <<< ecc_bit_num (ecc_even_bits (ecc_syndrome ecc_calc ecc_read)))
        else data i) := by
    unfold ecc_correct_data
    rw [ecc_syndrome_complement, if_neg hnz, if_pos hcor]
  refine ⟨by rw [hpair], ecc_bit_num_lt _, ecc_byte_addr_lt _, ?_, ?_, ?_,
    fun j => ecc_bit_num_testBit _ j, fun m => ecc_byte_addr_testBit _ m⟩
  · rw [hpair]
    simp [Nat.shiftLeft_eq]
  · rw [hpair]
    simp only [if_pos rfl]
    intro hEq
    have hb := congrArg
      (fun x => Nat.testBit x
        (ecc_bit_num (ecc_even_bits (ecc_syndrome ecc_calc ecc_read)))) hEq
    simp [Nat.testBit_xor, Nat.shiftLeft_eq, Nat.testBit_two_pow] at hb
  · intro i hi
    rw [hpair]
    simp [hi]

/-- Witness for C4 at computed = 0x05555555, stored = 0: the whole data area
is clean except bit 0 of byte 0, which the codec flips back. -/
theorem ecc_single_bit_correction_witness :
    ecc_syndrome 0x05555555 0 ≠ 0 ∧
      ecc_odd_bits (ecc_syndrome 0x05555555 0) ^^^
          ecc_even_bits (ecc_syndrome 0x05555555 0) = ECC_MASK ∧
      (ecc_correct_data 0x05555555 0 (fun _ => 0)).1 = ECC_CORRECTABLE_ERROR :=
  ⟨by decide, by decide,
    (ecc_single_bit_correction 0x05555555 0 (fun _ => 0) (by decide) (by decide)
      (by decide) (by decide)).1⟩

/-- C5: when the stored code at the primary spare offset mismatches the
computed code and verification classifies the error as EccSelfError, the read
sequencer retries verification exactly once using the backup copy at spare
offset 12; after that single retry the outcome is final: Ok (backup equal to
the computed code, or zero syndrome) and Corrected both yield FM_SUCCESS,
while Uncorrectable or a second EccSelfError yields FM_ECC_ERROR. -/
theorem read_page_self_error_retries_backup_once (env : NandEnv)
    (hm : ecc_complement env.eccReg ≠ word32le env.spareArea 8)
    (hself : (ecc_correct_data (ecc_complement env.eccReg) (word32le env.spareArea 8)
        env.dataArea).1 = ECC_ECC_ERROR) :
    ((ecc_complement env.eccReg = word32le env.spareArea 12 ∨
        (ecc_correct_data (ecc_complement env.eccReg) (word32le env.spareArea 12)
          env.dataArea).1 = ECC_NO_ERROR ∨
        (ecc_correct_data (ecc_complement env.eccReg) (word32le env.spareArea 12)
          env.dataArea).1 = ECC_CORRECTABLE_ERROR) →
      (fsmc_nand_read_page env true true).1 = FM_SUCCESS) ∧
      (((ecc_correct_data (ecc_complement env.eccReg) (word32le env.spareArea 12)
            env.dataArea).1 = ECC_ECC_ERROR ∨
          (ecc_correct_data (ecc_complement env.eccReg) (word32le env.spareArea 12)
            env.dataArea).1 = ECC_UNCORRECTABLE_ERROR) →
        (fsmc_nand_read_page env true true).1 = FM_ECC_ERROR) := by
  have hret := read_page_verify_retry (ecc_complement env.eccReg) env.spareArea
    env.dataArea hm hself
  have hv1 : (fsmc_nand_read_page env true true).1 =
      (read_page_ecc_verify (ecc_complement env.eccReg) env.spareArea env.dataArea).1 :=
    rfl
  constructor
  · rintro (h | h | h)
    · rw [hv1, hret, if_pos h]
    · by_cases hb : ecc_complement env.eccReg = word32le env.spareArea 12
      · rw [hv1, hret, if_pos hb]
      · rw [hv1, hret, if_neg hb, if_pos h]
    · by_cases hb : ecc_complement env.eccReg = word32le env.spareArea 12
      · rw [hv1, hret, if_pos hb]
      · rw [hv1, hret, if_neg hb, if_neg (by rw [h]; decide), if_pos h]
  · intro h
    have hb : ecc_complement env.eccReg ≠ word32le env.spareArea 12 := by
      intro hEq
      rcases h with h | h <;>
      · rw [← hEq, ecc_correct_data_self] at h
        simp [ECC_NO_ERROR, ECC_ECC_ERROR, ECC_UNCORRECTABLE_ERROR] at h
    rcases h with h | h
    · rw [hv1, hret, if_neg hb, if_neg (by rw [h]; decide), if_neg (by rw [h]; decide)]
    · rw [hv1, hret, if_neg hb, if_neg (by rw [h]; decide), if_neg (by rw [h]; decide)]

/-- Witness for C5: computed code 0, corrupted primary copy 1 (classified
EccSelfError) and intact backup copy 0 — the single retry with the backup
succeeds. -/
theorem read_page_self_error_retries_backup_once_witness :
    ecc_complement 4294967295 ≠ word32le (fun i => if i = 8 then 1 else 0) 8 ∧
      (ecc_correct_data (ecc_complement 4294967295)
          (word32le (fun i => if i = 8 then 1 else 0) 8) (fun _ => 0)).1 =
        ECC_ECC_ERROR ∧
      (fsmc_nand_read_page ⟨fun _ => 0, fun i => if i = 8 then 1 else 0, 4294967295⟩
          true true).1 = FM_SUCCESS :=
  ⟨by decide, by decide,
    (read_page_self_error_retries_backup_once
        ⟨fun _ => 0, fun i => if i = 8 then 1 else 0, 4294967295⟩
        (by decide) (by decide)).1 (Or.inl (by decide))⟩

/-- C9: the two stored ECC copies are kept consistent across write and read:
`fsmc_nand_write_page` with a data buffer stores the one computed code at both
spare offsets 8 and 12 (primary and backup, written together and identical);
`fsmc_nand_read_page` compares the computed code against the primary copy at
offset 8 — reading back a page whose spare area is exactly what the write
produced succeeds with the data untouched — and on an EccSelfError
classification it consults the backup copy at offset 12, the same offsets the
write used. -/
theorem ecc_copies_written_and_read_consistently (eccReg : Nat)
    (dbuf sbufInit : Nat → Nat) :
    word32le (fsmc_nand_write_page eccReg (some dbuf) (some sbufInit)).spareWritten 8 =
        ecc_complement eccReg ∧
      word32le (fsmc_nand_write_page eccReg (some dbuf) (some sbufInit)).spareWritten 12 =
        ecc_complement eccReg ∧
      (∀ env : NandEnv, env.eccReg = eccReg →
        env.spareArea =
          (fsmc_nand_write_page eccReg (some dbuf) (some sbufInit)).spareWritten →
        fsmc_nand_read_page env true true = (FM_SUCCESS, some env.dataArea)) ∧
      (∀ env : NandEnv, env.eccReg = eccReg →
        (ecc_correct_data (ecc_complement eccReg) (word32le env.spareArea 8)
            env.dataArea).1 = ECC_ECC_ERROR →
        word32le env.spareArea 12 = ecc_complement eccReg →
        (fsmc_nand_read_page env true true).1 = FM_SUCCESS) := by
  have hw : (fsmc_nand_write_page eccReg (some dbuf) (some sbufInit)).spareWritten =
      store_word32le (store_word32le sbufInit 8 (ecc_complement eccReg)) 12
        (ecc_complement eccReg) := rfl
  have hlt : ecc_complement eccReg % UINT32_MOD = ecc_complement eccReg :=
    Nat.mod_eq_of_lt (ecc_complement_lt eccReg)
  have h8 : word32le (store_word32le (store_word32le sbufInit 8 (ecc_complement eccReg))
      12 (ecc_complement eccReg)) 8 = ecc_complement eccReg := by
    rw [word32le_store_word32le_ne _ _ _ _ (Or.inl (by omega)), word32le_store_word32le,
      hlt]
  have h12 : word32le (store_word32le (store_word32le sbufInit 8 (ecc_complement eccReg))
      12 (ecc_complement eccReg)) 12 = ecc_complement eccReg := by
    rw [word32le_store_word32le, hlt]
  refine ⟨by rw [hw]; exact h8, by rw [hw]; exact h12, ?_, ?_⟩
  · intro env he hs
    have hpr : ecc_complement env.eccReg = word32le env.spareArea 8 := by
      rw [he, hs, hw, h8]
    have hv : fsmc_nand_read_page env true true =
        ((read_page_ecc_verify (ecc_complement env.eccReg) env.spareArea env.dataArea).1,
          some (read_page_ecc_verify (ecc_complement env.eccReg) env.spareArea
            env.dataArea).2) := rfl
    rw [hv]
    unfold read_page_ecc_verify
    rw [if_pos hpr]
  · intro env he hself hb
    have hself2 : (ecc_correct_data (ecc_complement env.eccReg)
        (word32le env.spareArea 8) env.dataArea).1 = ECC_ECC_ERROR := by
      rw [he]; exact hself
    have hm : ecc_complement env.eccReg ≠ word32le env.spareArea 8 := by
      intro hEq
      rw [← hEq, ecc_correct_data_self] at hself2
      simp [ECC_NO_ERROR, ECC_ECC_ERROR] at hself2
    have hb2 : ecc_complement env.eccReg = word32le env.spareArea 12 := by
      rw [he]; exact hb.symm
    have hv1 : (fsmc_nand_read_page env true true).1 =
        (read_page_ecc_verify (ecc_complement env.eccReg) env.spareArea env.dataArea).1 :=
      rfl
    rw [hv1, read_page_verify_retry _ _ _ hm hself2, if_pos hb2]

/-- Witness for C9: write with raw accumulator 0xFFFFFFFF (computed code 0),
then read back the very spare area the write produced; and a read whose
primary copy is corrupted to 1 but whose backup copy holds the computed code
0 also succeeds. -/
theorem ecc_copies_written_and_read_consistently_witness :
    word32le (fsmc_nand_write_page 4294967295 (some fun _ => 0)
        (some fun _ => 0)).spareWritten 8 = ecc_complement 4294967295 ∧
      fsmc_nand_read_page
          ⟨fun _ => 0,
            (fsmc_nand_write_page 4294967295 (some fun _ => 0)
              (some fun _ => 0)).spareWritten, 4294967295⟩ true true =
        (FM_SUCCESS, some fun _ => 0) ∧
      (fsmc_nand_read_page ⟨fun _ => 0, fun i => if i = 8 then 1 else 0, 4294967295⟩
          true true).1 = FM_SUCCESS :=
  ⟨(ecc_copies_written_and_read_consistently 4294967295 (fun _ => 0) (fun _ => 0)).1,
    (ecc_copies_written_and_read_consistently 4294967295 (fun _ => 0)
      (fun _ => 0)).2.2.1 _ rfl rfl,
    (ecc_copies_written_and_read_consistently 4294967295 (fun _ => 0)
      (fun _ => 0)).2.2.2 ⟨fun _ => 0, fun i => if i = 8 then 1 else 0, 4294967295⟩
      rfl (by decide) (by decide)⟩

/-- Witness for C8 at the last valid block and page of chip 0. -/
theorem row_address_round_trip_witness :
    (1023 : Nat) < flash_spec_0.num_blocks ∧ (63 : Nat) < flash_spec_0.pages_per_block ∧
      (ROW_ADDRESS 1023 63 = 63 + 1023 * flash_spec_0.pages_per_block ∧
        ADDR_1st_CYCLE (ROW_ADDRESS 1023 63) +
            256 * ADDR_2nd_CYCLE (ROW_ADDRESS 1023 63) =
          ROW_ADDRESS 1023 63) :=
  ⟨by decide, by decide, row_address_round_trip 1023 63 (by decide) (by decide)⟩

end FsmcNand
